import Mathlib

/-!
# Verification of the Logitech battery monitor acquisition pipeline and alert machine

Shallow embedding of `src/monitor.py`:
* the alert state machine `MouseBatteryMonitor._handle_alerts`,
* the BLE reader `ble_read_battery` and scanner wrapper `ble_find_device`,
* the OS fallback reader `windev_read_battery`,
* the acquisition pipeline `MouseBatteryMonitor._read_battery_async`,
* the refresh boundary `MouseBatteryMonitor._refresh` and the status text of
  `MouseBatteryMonitor._update_icon`.

External effects (radio transport, subprocess output) are passed in explicitly
as data; machine state is threaded explicitly.
-/

/-- `leadsWith pre l` : the list `l` starts with `pre` (character-wise). -/
def leadsWith : List Char → List Char → Bool
  | [], _ => true
  | _ :: _, [] => false
  | a :: as, b :: bs => a == b && leadsWith as bs

/-- `hasSub sub l` : `sub` occurs contiguously inside `l`
(the embedding of Python's `in` on strings). -/
def hasSub (sub : List Char) : List Char → Bool
  | [] => leadsWith sub []
  | c :: cs => leadsWith sub (c :: cs) || hasSub sub cs

/-- Python `str.lower()`, character-wise. -/
def toLowerChars (cs : List Char) : List Char :=
  cs.map Char.toLower

/-- Python `str.strip()`: drop leading and trailing whitespace. -/
def trimChars (cs : List Char) : List Char :=
  ((cs.dropWhile Char.isWhitespace).reverse.dropWhile Char.isWhitespace).reverse

/-- `DEVICE_KEYWORDS` from monitor.py. -/
def DEVICE_KEYWORDS : List String := ["MX Anywhere", "MX Master", "Logitech"]

/-- `ALERT_LEVELS` from monitor.py (thresholds for toast notifications,
descending order). -/
def ALERT_LEVELS : List Nat := [20, 10, 5]

/-- `_is_logitech_device(name)` from monitor.py: false on `None` or the empty
string, otherwise true iff some keyword occurs case-insensitively in the name. -/
def is_logitech_device (name : Option String) : Bool :=
  match name with
  | none => false
  | some n =>
      if n = "" then false
      else DEVICE_KEYWORDS.any fun kw =>
        hasSub (toLowerChars kw.toList) (toLowerChars n.toList)

/-- One toast notification as passed to `send_notification(title, body, level)`;
`level` is the icon level string (`"warning"` or `"error"`). -/
structure Notification where
  title : String
  body : String
  level : String
deriving DecidableEq

/-- The severity classification of `_handle_alerts`: given the crossed
threshold, the `(severity text, icon level)` pair. -/
def severityFor (t : Nat) : String × String :=
  if t ≤ 5 then ("CRITICAL", "error")
  else if t ≤ 10 then ("Very Low", "warning")
  else ("Low", "warning")

/-- The notification built by `_handle_alerts` when threshold `t` fires at
reading `level`. -/
def mkAlertNotification (dn : String) (level t : Nat) : Notification :=
  { title := dn ++ " Battery " ++ (severityFor t).1
    body := "Battery is at " ++ toString level ++ "%. Please charge soon."
    level := (severityFor t).2 }

/-- Descending insertion, used to embed Python's `sorted(_, reverse=True)`. -/
def insertDesc (x : Nat) : List Nat → List Nat
  | [] => [x]
  | y :: ys => if x ≥ y then x :: y :: ys else y :: insertDesc x ys

/-- `sorted(l, reverse=True)`. -/
def sortDesc (l : List Nat) : List Nat :=
  l.foldr insertDesc []

/-- Recovery step of `_handle_alerts`: drop from the armed set every
threshold the reading has risen strictly above.  The armed set is carried as a
list with membership semantics. -/
def recoverAlerts (alerted : List Nat) (level : Nat) : List Nat :=
  let recovered := alerted.filter fun t => decide (level > t)
  alerted.filter fun t => decide (t ∉ recovered)

/-- Trigger loop of `_handle_alerts`: walk the (descending) threshold list;
the first threshold that is crossed and not yet armed is armed, one
notification is sent, and the loop breaks. -/
def alertScan (dn : String) (level : Nat) : List Nat → List Nat → List Nat × List Notification
  | [], a => (a, [])
  | t :: ts, a =>
      if level ≤ t ∧ t ∉ a then (t :: a, [mkAlertNotification dn level t])
      else alertScan dn level ts a

/-- `MouseBatteryMonitor._handle_alerts(level)`: recovery, then the trigger
scan over `sorted(ALERT_LEVELS, reverse=True)`.  Returns the new armed set and
the notifications sent (at most one). -/
def handle_alerts (dn : String) (alerted : List Nat) (level : Nat) :
    List Nat × List Notification :=
  alertScan dn level (sortDesc ALERT_LEVELS) (recoverAlerts alerted level)

/-- Run `_handle_alerts` over a whole sequence of readings, collecting all
notifications in order. -/
def runAlerts (dn : String) : List Nat → List Nat → List Nat × List Notification
  | a, [] => (a, [])
  | a, r :: rs =>
      let p := handle_alerts dn a r
      let q := runAlerts dn p.1 rs
      (q.1, p.2 ++ q.2)

/-- Per-step trace of `_handle_alerts` over a sequence of readings: after each
reading, the armed set and the notifications that step emitted. -/
def alertTrace (dn : String) : List Nat → List Nat → List (List Nat × List Notification)
  | _, [] => []
  | a, r :: rs =>
      let p := handle_alerts dn a r
      p :: alertTrace dn p.1 rs

/- ---------------------------------------------------------------------------
BLE reading (`ble_read_battery`, `ble_find_device`)
--------------------------------------------------------------------------- -/

/-- One GATT characteristic as seen by `ble_read_battery`: its UUID string and
the outcome of `read_gatt_char` on it (`none` models a raised transport error,
`some bytes` the data returned). -/
structure GattCharacteristic where
  uuid : String
  value : Option (List Nat)
deriving DecidableEq

/-- One GATT service: UUID and characteristics. -/
structure GattService where
  uuid : String
  characteristics : List GattCharacteristic
deriving DecidableEq

/-- Outcome of `BleakClient(address)` for one call of `ble_read_battery`:
either the connection attempt raises (timeout or transport error), or it
yields the device's service table. -/
inductive BleConn where
  | failure : BleConn
  | services : List GattService → BleConn
deriving DecidableEq

/-- `data = await client.read_gatt_char(...)` followed by `data[0]`:
`none` when the read raises or the data is empty (IndexError), else the first
byte.  Either exception is caught by the surrounding `except`. -/
def readGattFirstByte (c : GattCharacteristic) : Option Nat :=
  match c.value with
  | none => none
  | some [] => none
  | some (b :: _) => some b

/-- Inner loop of `ble_read_battery` over one service's characteristics:
`none` means no characteristic with "2a19" was found (keep scanning services);
`some r` means such a characteristic was found and the read outcome `r`
decides the whole call. -/
def scanSvcChars : List GattCharacteristic → Option (Option Nat)
  | [] => none
  | c :: cs =>
      if hasSub "2a19".toList (toLowerChars c.uuid.toList) then some (readGattFirstByte c)
      else scanSvcChars cs

/-- Outer loop of `ble_read_battery` over the service table. -/
def scanServices : List GattService → Option Nat
  | [] => none
  | s :: ss =>
      if hasSub "180f".toList (toLowerChars s.uuid.toList) then
        match scanSvcChars s.characteristics with
        | some r => r
        | none => scanServices ss
      else scanServices ss

/-- `ble_read_battery(address)`: every failure (connection error, timeout,
missing service/characteristic, read error, empty data) yields `none`; a
successful read yields the first byte. -/
def ble_read_battery (conn : BleConn) : Option Nat :=
  match conn with
  | BleConn.failure => none
  | BleConn.services svcs => scanServices svcs

/-- A BLE device as returned by the scanner: address and (optional) advertised
name. -/
structure BleDevice where
  address : String
  name : Option String
deriving DecidableEq

/-- The filter `match(device, _adv)` that `ble_find_device` passes to
`BleakScanner.find_device_by_filter`. -/
def ble_scan_match (d : BleDevice) : Bool :=
  is_logitech_device d.name

/-- `ble_find_device()`: the scanner outcome is passed in (`Except.error`
models a raised scanner exception, which this function does not catch).  On a
found device the name defaults to "Logitech Mouse". -/
def ble_find_device (scanResult : Except Unit (Option BleDevice)) :
    Except Unit (Option (String × String)) :=
  match scanResult with
  | Except.error e => Except.error e
  | Except.ok none => Except.ok none
  | Except.ok (some d) => Except.ok (some (d.address, d.name.getD "Logitech Mouse"))


/- ---------------------------------------------------------------------------
Windows Device API fallback (`windev_read_battery`)
--------------------------------------------------------------------------- -/

/-- Split a character list at its last `'|'`; `none` when no `'|'` occurs
(the embedding of `"|" in line` followed by `line.rsplit("|", 1)`). -/
def rsplitBar : List Char → Option (List Char × List Char)
  | [] => none
  | c :: cs =>
      match rsplitBar cs with
      | some p => some (c :: p.1, p.2)
      | none => if c = '|' then some ([], cs) else none

/-- `re.search(r"\d+", s)`: the first maximal run of digits, if any. -/
def firstDigitRun : List Char → Option (List Char)
  | [] => none
  | c :: cs =>
      if c.isDigit then some (c :: cs.takeWhile fun d => d.isDigit)
      else firstDigitRun cs

/-- `int(...)` on a digit run. -/
def digitsToNat (ds : List Char) : Nat :=
  ds.foldl (fun n c => 10 * n + (c.toNat - 48)) 0

/-- The per-line body of `windev_read_battery`: strip, require a `'|'`,
split name from level text, require the Logitech name predicate, extract the
first digit run, and require `0 <= level <= 100`. -/
def windevParseLine (line : String) : Option Nat :=
  match rsplitBar (trimChars line.toList) with
  | none => none
  | some p =>
      if is_logitech_device (some (String.mk p.1)) then
        match firstDigitRun p.2 with
        | some ds =>
            let level := digitsToNat ds
            if 0 ≤ level ∧ level ≤ 100 then some level else none
        | none => none
      else none

/-- Scan one script's stdout lines; the first accepted line's level wins. -/
def windevScanLines : List String → Option Nat
  | [] => none
  | l :: ls =>
      match windevParseLine l with
      | some lvl => some lvl
      | none => windevScanLines ls

/-- `windev_read_battery()`: each entry is one PowerShell script's outcome,
`none` when `subprocess.run` raised or timed out (the script is skipped),
`some lines` its stdout lines.  Scripts are tried in order; the first accepted
value is returned; otherwise `None`. -/
def windev_read_battery : List (Option (List String)) → Option Nat
  | [] => none
  | none :: rest => windev_read_battery rest
  | some lines :: rest =>
      match windevScanLines lines with
      | some lvl => some lvl
      | none => windev_read_battery rest

/- ---------------------------------------------------------------------------
Acquisition pipeline (`_read_battery_async`) and refresh (`_refresh`)
--------------------------------------------------------------------------- -/

/-- The mutable monitor state touched by one refresh: `_battery`,
`_device_name`, `_address`, `_alerted`, and the persisted config entries
`address` / `device_name` (absent keys are `none`). -/
structure MonitorState where
  battery : Option Nat
  deviceName : String
  address : Option String
  alerted : List Nat
  cfgAddress : Option String
  cfgDeviceName : Option String
deriving DecidableEq

/-- The external outcomes one refresh can observe: the cached-address
connection, the scanner result (`Except.error` models a raised scanner
exception), the connection to a freshly discovered device, and the fallback
scripts' outputs. -/
structure RefreshEnv where
  cachedConn : BleConn
  scan : Except Unit (Option BleDevice)
  foundConn : BleConn
  windevLines : List (Option (List String))

/-- Python truthiness of `self._address` (`None` and `""` are falsy). -/
def addrTruthy : Option String → Bool
  | none => false
  | some a => decide (a ≠ "")

/-- Stage 3 of `_read_battery_async`: the Windows Device API fallback. -/
def read_battery_stage3 (env : RefreshEnv) (s : MonitorState) :
    Except Unit (Option Nat) × MonitorState :=
  (Except.ok (windev_read_battery env.windevLines), s)

/-- Stage 2 of `_read_battery_async`: BLE scan; on success persist address and
device name to the config and read; a scanner exception propagates. -/
def read_battery_stage2 (env : RefreshEnv) (s : MonitorState) :
    Except Unit (Option Nat) × MonitorState :=
  match ble_find_device env.scan with
  | Except.error e => (Except.error e, s)
  | Except.ok none => read_battery_stage3 env s
  | Except.ok (some p) =>
      let s1 : MonitorState :=
        { s with address := some p.1, deviceName := p.2,
                 cfgAddress := some p.1, cfgDeviceName := some p.2 }
      match ble_read_battery env.foundConn with
      | some lvl => (Except.ok (some lvl), s1)
      | none => read_battery_stage3 env s1

/-- `MouseBatteryMonitor._read_battery_async`: cached-address read first
(clearing the address on failure), then scan, then OS fallback. -/
def read_battery_async (env : RefreshEnv) (s : MonitorState) :
    Except Unit (Option Nat) × MonitorState :=
  if addrTruthy s.address then
    match ble_read_battery env.cachedConn with
    | some lvl => (Except.ok (some lvl), s)
    | none => read_battery_stage2 env { s with address := none }
  else read_battery_stage2 env s

/-- `MouseBatteryMonitor._refresh`: run the pipeline inside a catch-all; on a
normal result store it as `_battery` and run the alert machine on numeric
readings; on an exception fall through (the state reached so far is kept and
`_battery` is not assigned). -/
def refreshStep (env : RefreshEnv) (s : MonitorState) :
    MonitorState × List Notification :=
  match read_battery_async env s with
  | (Except.ok lvl, s1) =>
      let s2 : MonitorState := { s1 with battery := lvl }
      match lvl with
      | some l =>
          let p := handle_alerts s2.deviceName s2.alerted l
          ({ s2 with alerted := p.1 }, p.2)
      | none => (s2, [])
  | (Except.error _, s1) => (s1, [])

/-- Iterate `_refresh` with the same environment outcomes. -/
def refreshN (env : RefreshEnv) : Nat → MonitorState → MonitorState
  | 0, s => s
  | n + 1, s => refreshN env n (refreshStep env s).1

/-- The status word computed in `_update_icon` from `self._battery`. -/
def statusText (battery : Option Nat) : String :=
  match battery with
  | none => "Unknown"
  | some b =>
      if b > 30 then "Good"
      else if b > 20 then "OK"
      else if b > 10 then "Low"
      else "Critical"

/-- Environment for the C9 analysis: the traced radio is unreachable and the
scanner raises an exception (the one operation of `_read_battery_async` whose
exceptions are not caught locally). -/
def c9Env : RefreshEnv :=
  ⟨BleConn.failure, Except.error (), BleConn.failure, []⟩

/-- State for the C9 analysis: a prior known battery value of 50. -/
def c9State : MonitorState :=
  ⟨some 50, "Logitech Mouse", none, [], none, none⟩


theorem mem_recoverAlerts (a : List Nat) (level t : Nat) :
    t ∈ recoverAlerts a level ↔ t ∈ a ∧ level ≤ t := by
  simp only [recoverAlerts, List.mem_filter, decide_eq_true_eq, not_and, not_lt]
  constructor
  · rintro ⟨h1, h2⟩
    exact ⟨h1, h2 h1⟩
  · rintro ⟨h1, h2⟩
    exact ⟨h1, fun _ => h2⟩

theorem alertScan_len (dn : String) (level : Nat) :
    ∀ (l a : List Nat), (alertScan dn level l a).2.length ≤ 1
  | [], _ => by simp [alertScan]
  | t :: ts, a => by
      by_cases h : level ≤ t ∧ t ∉ a
      · simp [alertScan, h]
      · simp only [alertScan, if_neg h]
        exact alertScan_len dn level ts a

theorem mem_alertScan (dn : String) (level : Nat) :
    ∀ (l a : List Nat) (t : Nat), t ∈ (alertScan dn level l a).1 → t ∈ a ∨ level ≤ t
  | [], _, t => by
      intro h
      exact Or.inl h
  | u :: us, a, t => by
      by_cases h : level ≤ u ∧ u ∉ a
      · simp only [alertScan, if_pos h, List.mem_cons]
        rintro (rfl | hmem)
        · exact Or.inr h.1
        · exact Or.inl hmem
      · simp only [alertScan, if_neg h]
        exact mem_alertScan dn level us a t

theorem mem_handle_alerts (dn : String) (a : List Nat) (level t : Nat)
    (h : t ∈ (handle_alerts dn a level).1) : level ≤ t := by
  rcases mem_alertScan dn level (sortDesc ALERT_LEVELS) (recoverAlerts a level) t h with h1 | h1
  · exact ((mem_recoverAlerts a level t).mp h1).2
  · exact h1

theorem alertScan_eq_filter_head (dn : String) (level : Nat) :
    ∀ (l a : List Nat),
      alertScan dn level l a =
        match (l.filter fun t => decide (level ≤ t ∧ t ∉ a)).head? with
        | none => (a, [])
        | some t => (t :: a, [mkAlertNotification dn level t])
  | [], a => by simp [alertScan]
  | u :: us, a => by
      by_cases h : level ≤ u ∧ u ∉ a
      · simp [alertScan, if_pos h, List.filter_cons, decide_eq_true h]
      · have hd : decide (level ≤ u ∧ u ∉ a) = false := decide_eq_false h
        simp only [alertScan, if_neg h, List.filter_cons, hd, Bool.false_eq_true, if_false]
        exact alertScan_eq_filter_head dn level us a

theorem runAlerts_append_last (dn : String) :
    ∀ (rs : List Nat) (a : List Nat) (level : Nat),
      (runAlerts dn a (rs ++ [level])).1 = (handle_alerts dn (runAlerts dn a rs).1 level).1
  | [], a, level => by simp [runAlerts]
  | r :: rs, a, level => by
      simp only [runAlerts, List.cons_append]
      exact runAlerts_append_last dn rs (handle_alerts dn a r).1 level

/- ---------------------------------------------------------------------------
Claims about the alert state machine
--------------------------------------------------------------------------- -/

/-- C1: for every refresh at most one notification is emitted, and on the
readings [25, 15, 8, 15, 8] with thresholds [20, 10, 5] (armed set initially
empty) notifications fire exactly at the 15 (arming 20), the first 8 (arming
10), nothing at the second 15 (recovery leaves only 20 armed), and again at
the second 8 (re-arming 10). -/
theorem c1_one_notification_per_refresh_and_cycle :
    (∀ (env : RefreshEnv) (s : MonitorState), (refreshStep env s).2.length ≤ 1) ∧
    alertTrace "Logitech Mouse" [] [25, 15, 8, 15, 8] =
      [([], []),
       ([20], [{ title := "Logitech Mouse Battery Low",
                 body := "Battery is at 15%. Please charge soon.", level := "warning" }]),
       ([10, 20], [{ title := "Logitech Mouse Battery Very Low",
                     body := "Battery is at 8%. Please charge soon.", level := "warning" }]),
       ([20], []),
       ([10, 20], [{ title := "Logitech Mouse Battery Very Low",
                     body := "Battery is at 8%. Please charge soon.", level := "warning" }])] := by
  constructor
  · intro env s
    rcases hr : read_battery_async env s with ⟨res, s1⟩
    rcases res with e | lvl
    · simp [refreshStep, hr]
    · rcases lvl with _ | l
      · simp [refreshStep, hr]
      · simp only [refreshStep, hr]
        exact alertScan_len _ _ _ _
  · decide

/-- C2: after processing any sequence of readings ending in `level`, the armed
alert set contains no threshold strictly below `level`. -/
theorem c2_recovery_invariant (dn : String) (a rs : List Nat) (level t : Nat)
    (h : t ∈ (runAlerts dn a (rs ++ [level])).1) : level ≤ t := by
  rw [runAlerts_append_last] at h
  exact mem_handle_alerts dn (runAlerts dn a rs).1 level t h

theorem c2_recovery_invariant_witness : (15 : Nat) ≤ 20 :=
  c2_recovery_invariant "Logitech Mouse" [] [25] 15 20 (by decide)

/-- C3: one alert-machine step scans the descending threshold list and arms
exactly the first threshold that is crossed and not already armed, emitting
one notification whose severity band is determined by that threshold
(critical at most 5, very-low at most 10, low otherwise); if no threshold
qualifies, nothing is emitted and the armed set gains no element. -/
theorem c3_trigger_first_crossed_threshold (dn : String) (a : List Nat) (level : Nat) :
    ((((sortDesc ALERT_LEVELS).filter fun t =>
        decide (level ≤ t ∧ t ∉ recoverAlerts a level)).head? = none →
      handle_alerts dn a level = (recoverAlerts a level, [])) ∧
     (∀ t, (((sortDesc ALERT_LEVELS).filter fun t =>
        decide (level ≤ t ∧ t ∉ recoverAlerts a level)).head? = some t) →
      handle_alerts dn a level =
        (t :: recoverAlerts a level,
         [{ title := dn ++ " Battery " ++
              (if t ≤ 5 then "CRITICAL" else if t ≤ 10 then "Very Low" else "Low"),
            body := "Battery is at " ++ toString level ++ "%. Please charge soon.",
            level := if t ≤ 5 then "error" else "warning" }]))) := by
  have he := alertScan_eq_filter_head dn level (sortDesc ALERT_LEVELS) (recoverAlerts a level)
  constructor
  · intro hnone
    rw [handle_alerts, he, hnone]
  · intro t ht
    rw [handle_alerts, he, ht]
    simp only [mkAlertNotification, severityFor]
    by_cases h5 : t ≤ 5
    · simp [h5]
    · by_cases h10 : t ≤ 10 <;> simp [h5, h10]

theorem c3_trigger_first_crossed_threshold_witness :
    handle_alerts "Logitech Mouse" [] 15 =
      ([20], [{ title := "Logitech Mouse Battery Low",
                body := "Battery is at 15%. Please charge soon.", level := "warning" }]) := by
  have h := (c3_trigger_first_crossed_threshold "Logitech Mouse" [] 15).2 20 (by decide)
  rw [h]
  decide

/-- C7 counterexample: the claim predicts severities "Low" at 18, "CRITICAL"
at the first 3, and no notification at the second 3; the code instead emits
"Very Low" at the first 3 (arming threshold 10) and "CRITICAL" at the second
3 (arming threshold 5). -/
theorem c7_counterexample :
    ¬ ((alertTrace "Logitech Mouse" [] [73, 18, 3, 3]).map (fun p => p.2.map fun n => n.title) =
       [[], ["Logitech Mouse Battery Low"], ["Logitech Mouse Battery CRITICAL"], []]) := by
  decide

/-- C7 (amended): readings 73, 18, 3, 3 from an empty armed set render
"Good", "Low", "Critical", "Critical"; the 18 emits one "Low" notification
(arming 20), the first 3 emits one "Very Low" notification (arming 10), and
the second 3 emits one "CRITICAL" notification (arming 5). -/
theorem c7_end_to_end_amended :
    statusText (some 73) = "Good" ∧ statusText (some 18) = "Low" ∧
    statusText (some 3) = "Critical" ∧
    alertTrace "Logitech Mouse" [] [73, 18, 3, 3] =
      [([], []),
       ([20], [{ title := "Logitech Mouse Battery Low",
                 body := "Battery is at 18%. Please charge soon.", level := "warning" }]),
       ([10, 20], [{ title := "Logitech Mouse Battery Very Low",
                     body := "Battery is at 3%. Please charge soon.", level := "warning" }]),
       ([5, 10, 20], [{ title := "Logitech Mouse Battery CRITICAL",
                        body := "Battery is at 3%. Please charge soon.", level := "error" }])] := by
  decide

/- ---------------------------------------------------------------------------
Pipeline frame lemmas
--------------------------------------------------------------------------- -/

theorem stage2_frame (env : RefreshEnv) (s : MonitorState) :
    (read_battery_stage2 env s).2.battery = s.battery ∧
    (read_battery_stage2 env s).2.alerted = s.alerted := by
  unfold read_battery_stage2
  rcases hscan : env.scan with e | od
  · simp [ble_find_device]
  · rcases od with _ | d
    · simp [ble_find_device, read_battery_stage3]
    · rcases hf : ble_read_battery env.foundConn with _ | lvl <;>
        simp [ble_find_device, hf, read_battery_stage3]

theorem rba_frame (env : RefreshEnv) (s : MonitorState) :
    (read_battery_async env s).2.battery = s.battery ∧
    (read_battery_async env s).2.alerted = s.alerted := by
  unfold read_battery_async
  rcases ha : addrTruthy s.address with _ | _
  · simp only [Bool.false_eq_true, if_false]
    exact stage2_frame env s
  · simp only [if_true]
    rcases hc : ble_read_battery env.cachedConn with _ | lvl
    · simpa using stage2_frame env { s with address := none }
    · simp

theorem stage2_found (env : RefreshEnv) (s : MonitorState) (d : BleDevice)
    (hscan : env.scan = Except.ok (some d)) :
    (ble_read_battery env.foundConn = none →
       (read_battery_stage2 env s).1 = Except.ok (windev_read_battery env.windevLines)) ∧
    (∀ lvl, ble_read_battery env.foundConn = some lvl →
       (read_battery_stage2 env s).1 = Except.ok (some lvl)) ∧
    (read_battery_stage2 env s).2.address = some d.address ∧
    (read_battery_stage2 env s).2.cfgAddress = some d.address ∧
    (read_battery_stage2 env s).2.deviceName = d.name.getD "Logitech Mouse" ∧
    (read_battery_stage2 env s).2.cfgDeviceName = some (d.name.getD "Logitech Mouse") := by
  unfold read_battery_stage2
  rcases hf : ble_read_battery env.foundConn with _ | lvl <;>
    simp [ble_find_device, hscan, hf, read_battery_stage3]

theorem stage2_not_found (env : RefreshEnv) (s : MonitorState)
    (hscan : env.scan = Except.ok none) :
    read_battery_stage2 env s = (Except.ok (windev_read_battery env.windevLines), s) := by
  unfold read_battery_stage2
  simp [ble_find_device, hscan, read_battery_stage3]

theorem rba_first_stage_skipped (env : RefreshEnv) (s : MonitorState)
    (h : addrTruthy s.address = false ∨ ble_read_battery env.cachedConn = none) :
    read_battery_async env s = read_battery_stage2 env s ∨
    read_battery_async env s = read_battery_stage2 env { s with address := none } := by
  unfold read_battery_async
  rcases ha : addrTruthy s.address with _ | _
  · left
    simp
  · right
    rcases h with h | h
    · rw [ha] at h
      cases h
    · simp [h]

/- ---------------------------------------------------------------------------
Claims about the acquisition pipeline
--------------------------------------------------------------------------- -/

/-- C4: when a refresh starts with a cached address and the direct read fails,
the cached address is cleared before discovery runs, and afterwards the stored
address is either absent (with the persisted config entry untouched) or the
address of the discovery that just succeeded (which is then also persisted). -/
theorem c4_cached_failure_invalidates (env : RefreshEnv) (s : MonitorState)
    (hcache : addrTruthy s.address = true)
    (hfail : ble_read_battery env.cachedConn = none) :
    read_battery_async env s = read_battery_stage2 env { s with address := none } ∧
    (((read_battery_async env s).2.address = none ∧
      (read_battery_async env s).2.cfgAddress = s.cfgAddress) ∨
     (∃ d, env.scan = Except.ok (some d) ∧
      (read_battery_async env s).2.address = some d.address ∧
      (read_battery_async env s).2.cfgAddress = some d.address)) := by
  have h1 : read_battery_async env s = read_battery_stage2 env { s with address := none } := by
    unfold read_battery_async
    simp [hcache, hfail]
  refine ⟨h1, ?_⟩
  rw [h1]
  rcases hscan : env.scan with e | od
  · left
    unfold read_battery_stage2
    simp [ble_find_device, hscan]
  · rcases od with _ | d
    · left
      rw [stage2_not_found env _ hscan]
      exact ⟨rfl, rfl⟩
    · right
      have h := stage2_found env { s with address := none } d hscan
      exact ⟨d, rfl, h.2.2.1, h.2.2.2.1⟩

theorem c4_cached_failure_invalidates_witness :
    read_battery_async ⟨BleConn.failure, Except.ok none, BleConn.failure, []⟩
        ⟨none, "Logitech Mouse", some "AA:BB", [], some "AA:BB", some "Logitech Mouse"⟩ =
      read_battery_stage2 ⟨BleConn.failure, Except.ok none, BleConn.failure, []⟩
        ⟨none, "Logitech Mouse", none, [], some "AA:BB", some "Logitech Mouse"⟩ ∧
    (((read_battery_async ⟨BleConn.failure, Except.ok none, BleConn.failure, []⟩
        ⟨none, "Logitech Mouse", some "AA:BB", [], some "AA:BB", some "Logitech Mouse"⟩).2.address = none ∧
      (read_battery_async ⟨BleConn.failure, Except.ok none, BleConn.failure, []⟩
        ⟨none, "Logitech Mouse", some "AA:BB", [], some "AA:BB", some "Logitech Mouse"⟩).2.cfgAddress = some "AA:BB") ∨
     (∃ d, (⟨BleConn.failure, Except.ok none, BleConn.failure, []⟩ : RefreshEnv).scan = Except.ok (some d) ∧
      (read_battery_async ⟨BleConn.failure, Except.ok none, BleConn.failure, []⟩
        ⟨none, "Logitech Mouse", some "AA:BB", [], some "AA:BB", some "Logitech Mouse"⟩).2.address = some d.address ∧
      (read_battery_async ⟨BleConn.failure, Except.ok none, BleConn.failure, []⟩
        ⟨none, "Logitech Mouse", some "AA:BB", [], some "AA:BB", some "Logitech Mouse"⟩).2.cfgAddress = some d.address)) :=
  c4_cached_failure_invalidates _ _ (by decide) rfl

/-- C5: one refresh runs the acquisition stages in strict priority order:
a successful cached-address read returns its value with the state untouched;
otherwise, on a successful discovery the found identity is stored and
persisted and a read against it returns its value on success; and only when
all wireless attempts produced nothing is the OS fallback value the result. -/
theorem c5_priority_order (env : RefreshEnv) (s : MonitorState) :
    (∀ lvl, addrTruthy s.address = true → ble_read_battery env.cachedConn = some lvl →
       read_battery_async env s = (Except.ok (some lvl), s)) ∧
    (∀ d lvl,
       (addrTruthy s.address = false ∨ ble_read_battery env.cachedConn = none) →
       env.scan = Except.ok (some d) →
       ble_read_battery env.foundConn = some lvl →
       (read_battery_async env s).1 = Except.ok (some lvl) ∧
       (read_battery_async env s).2.address = some d.address ∧
       (read_battery_async env s).2.cfgAddress = some d.address ∧
       (read_battery_async env s).2.deviceName = d.name.getD "Logitech Mouse" ∧
       (read_battery_async env s).2.cfgDeviceName = some (d.name.getD "Logitech Mouse")) ∧
    ((addrTruthy s.address = false ∨ ble_read_battery env.cachedConn = none) →
     (env.scan = Except.ok none ∨
      (∃ d, env.scan = Except.ok (some d) ∧ ble_read_battery env.foundConn = none)) →
     (read_battery_async env s).1 = Except.ok (windev_read_battery env.windevLines)) := by
  refine ⟨?_, ?_, ?_⟩
  · intro lvl ha hc
    unfold read_battery_async
    simp [ha, hc]
  · intro d lvl h hscan hf
    rcases rba_first_stage_skipped env s h with h2 | h2 <;> rw [h2]
    · have hst := stage2_found env s d hscan
      exact ⟨hst.2.1 lvl hf, hst.2.2.1, hst.2.2.2.1, hst.2.2.2.2.1, hst.2.2.2.2.2⟩
    · have hst := stage2_found env { s with address := none } d hscan
      exact ⟨hst.2.1 lvl hf, hst.2.2.1, hst.2.2.2.1, hst.2.2.2.2.1, hst.2.2.2.2.2⟩
  · intro h hw
    rcases rba_first_stage_skipped env s h with h2 | h2 <;> rw [h2]
    · rcases hw with hscan | ⟨d, hscan, hf⟩
      · rw [stage2_not_found env s hscan]
      · exact (stage2_found env s d hscan).1 hf
    · rcases hw with hscan | ⟨d, hscan, hf⟩
      · rw [stage2_not_found env _ hscan]
      · exact (stage2_found env _ d hscan).1 hf

theorem c5_priority_order_witness :
    read_battery_async
        ⟨BleConn.services [⟨"0000180f-0000-1000-8000-00805f9b34fb",
            [⟨"00002a19-0000-1000-8000-00805f9b34fb", some [55]⟩]⟩],
          Except.ok none, BleConn.failure, []⟩
        ⟨none, "Logitech Mouse", some "AA:BB", [], some "AA:BB", none⟩ =
      (Except.ok (some 55),
       ⟨none, "Logitech Mouse", some "AA:BB", [], some "AA:BB", none⟩) ∧
    (read_battery_async
        ⟨BleConn.failure,
          Except.ok (some ⟨"CC:DD", some "MX Master 3"⟩),
          BleConn.services [⟨"0000180f-0000-1000-8000-00805f9b34fb",
            [⟨"00002a19-0000-1000-8000-00805f9b34fb", some [66]⟩]⟩], []⟩
        ⟨none, "Logitech Mouse", none, [], none, none⟩).1 = Except.ok (some 66) ∧
    (read_battery_async
        ⟨BleConn.failure, Except.ok none, BleConn.failure, []⟩
        ⟨none, "Logitech Mouse", none, [], none, none⟩).1 = Except.ok none := by
  refine ⟨?_, ?_, ?_⟩
  · exact (c5_priority_order
      ⟨BleConn.services [⟨"0000180f-0000-1000-8000-00805f9b34fb",
          [⟨"00002a19-0000-1000-8000-00805f9b34fb", some [55]⟩]⟩],
        Except.ok none, BleConn.failure, []⟩
      ⟨none, "Logitech Mouse", some "AA:BB", [], some "AA:BB", none⟩).1 55
      (by decide) (by decide)
  · exact ((c5_priority_order
      ⟨BleConn.failure,
        Except.ok (some ⟨"CC:DD", some "MX Master 3"⟩),
        BleConn.services [⟨"0000180f-0000-1000-8000-00805f9b34fb",
          [⟨"00002a19-0000-1000-8000-00805f9b34fb", some [66]⟩]⟩], []⟩
      ⟨none, "Logitech Mouse", none, [], none, none⟩).2.1
      ⟨"CC:DD", some "MX Master 3"⟩ 66 (Or.inl rfl) rfl (by decide)).1
  · exact (c5_priority_order
      ⟨BleConn.failure, Except.ok none, BleConn.failure, []⟩
      ⟨none, "Logitech Mouse", none, [], none, none⟩).2.2
      (Or.inl rfl) (Or.inl rfl)

/- ---------------------------------------------------------------------------
Claims about the refresh boundary
--------------------------------------------------------------------------- -/

/-- C9 counterexample: a refresh cycle hit by an unexpected scanner exception
keeps the prior battery value 50 instead of reverting to the unknown state, so
the claimed reset-to-unknown is false on the code. -/
theorem c9_counterexample :
    (read_battery_async c9Env c9State).1 = Except.error () ∧
    ¬ ((refreshStep c9Env c9State).1.battery = none) ∧
    (refreshStep c9Env c9State).1.battery = some 50 := by
  refine ⟨rfl, ?_, rfl⟩
  decide

/-- C9 (amended): an unexpected failure inside a refresh cycle is caught at
the refresh boundary: the cycle emits no notification and leaves the alert
set unchanged, but the battery reading keeps its prior value for that cycle
rather than reverting to unknown. -/
theorem c9_refresh_boundary_catches (env : RefreshEnv) (s : MonitorState)
    (h : (read_battery_async env s).1 = Except.error ()) :
    (refreshStep env s).1.battery = s.battery ∧
    (refreshStep env s).1.alerted = s.alerted ∧
    (refreshStep env s).2 = [] := by
  have hb := (rba_frame env s).1
  have ha := (rba_frame env s).2
  rcases hr : read_battery_async env s with ⟨res, s1⟩
  rw [hr] at h hb ha
  subst h
  simp only [refreshStep, hr]
  exact ⟨hb, ha, trivial⟩

theorem c9_refresh_boundary_catches_witness :
    (refreshStep c9Env c9State).1.battery = some 50 ∧
    (refreshStep c9Env c9State).1.alerted = [] ∧
    (refreshStep c9Env c9State).2 = [] :=
  c9_refresh_boundary_catches c9Env c9State rfl

/-- C10: a refresh whose pipeline produces no reading leaves the armed alert
set unchanged and emits no notification; the battery reading becomes unknown. -/
theorem c10_unknown_reading_no_alerts (env : RefreshEnv) (s : MonitorState)
    (h : (read_battery_async env s).1 = Except.ok none) :
    (refreshStep env s).1.alerted = s.alerted ∧
    (refreshStep env s).2 = [] ∧
    (refreshStep env s).1.battery = none := by
  have ha := (rba_frame env s).2
  rcases hr : read_battery_async env s with ⟨res, s1⟩
  rw [hr] at h ha
  subst h
  simp only [refreshStep, hr]
  exact ⟨ha, trivial, trivial⟩

theorem c10_unknown_reading_no_alerts_witness :
    (refreshStep ⟨BleConn.failure, Except.ok none, BleConn.failure, []⟩
        ⟨some 40, "Logitech Mouse", none, [20], none, none⟩).1.alerted = [20] ∧
    (refreshStep ⟨BleConn.failure, Except.ok none, BleConn.failure, []⟩
        ⟨some 40, "Logitech Mouse", none, [20], none, none⟩).2 = [] ∧
    (refreshStep ⟨BleConn.failure, Except.ok none, BleConn.failure, []⟩
        ⟨some 40, "Logitech Mouse", none, [20], none, none⟩).1.battery = none :=
  c10_unknown_reading_no_alerts
    ⟨BleConn.failure, Except.ok none, BleConn.failure, []⟩
    ⟨some 40, "Logitech Mouse", none, [20], none, none⟩ rfl

/- ---------------------------------------------------------------------------
BLE failure lemmas and claim C8
--------------------------------------------------------------------------- -/

theorem scanSvcChars_none_of_no2a19 :
    ∀ cs : List GattCharacteristic,
      (∀ c ∈ cs, hasSub "2a19".toList (toLowerChars c.uuid.toList) = false) →
      scanSvcChars cs = none
  | [], _ => rfl
  | c :: cs, h => by
      have hc := h c (List.mem_cons_self c cs)
      simp only [scanSvcChars, hc, Bool.false_eq_true, if_false]
      exact scanSvcChars_none_of_no2a19 cs fun x hx => h x (List.mem_cons_of_mem c hx)

theorem scanServices_none_of_missing :
    ∀ svcs : List GattService,
      (∀ svc ∈ svcs, hasSub "180f".toList (toLowerChars svc.uuid.toList) = true →
        ∀ c ∈ svc.characteristics, hasSub "2a19".toList (toLowerChars c.uuid.toList) = false) →
      scanServices svcs = none
  | [], _ => rfl
  | svc :: ss, h => by
      have ih := scanServices_none_of_missing ss fun x hx => h x (List.mem_cons_of_mem svc hx)
      rcases h180 : hasSub "180f".toList (toLowerChars svc.uuid.toList) with _ | _
      · simp only [scanServices, h180, Bool.false_eq_true, if_false]
        exact ih
      · have hchars := scanSvcChars_none_of_no2a19 svc.characteristics
          (h svc (List.mem_cons_self svc ss) h180)
        simp only [scanServices, h180, if_true, hchars]
        exact ih

theorem scanSvcChars_of_reads_fail :
    ∀ cs : List GattCharacteristic, (∀ c ∈ cs, c.value = none) →
      scanSvcChars cs = none ∨ scanSvcChars cs = some none
  | [], _ => Or.inl rfl
  | c :: cs, h => by
      rcases h2a : hasSub "2a19".toList (toLowerChars c.uuid.toList) with _ | _
      · simp only [scanSvcChars, h2a, Bool.false_eq_true, if_false]
        exact scanSvcChars_of_reads_fail cs fun x hx => h x (List.mem_cons_of_mem c hx)
      · right
        have hv := h c (List.mem_cons_self c cs)
        simp only [scanSvcChars, h2a, if_true, readGattFirstByte, hv]

theorem scanServices_none_of_reads_fail :
    ∀ svcs : List GattService,
      (∀ svc ∈ svcs, ∀ c ∈ svc.characteristics, c.value = none) →
      scanServices svcs = none
  | [], _ => rfl
  | svc :: ss, h => by
      have ih := scanServices_none_of_reads_fail ss fun x hx => h x (List.mem_cons_of_mem svc hx)
      rcases h180 : hasSub "180f".toList (toLowerChars svc.uuid.toList) with _ | _
      · simp only [scanServices, h180, Bool.false_eq_true, if_false]
        exact ih
      · rcases scanSvcChars_of_reads_fail svc.characteristics
          (h svc (List.mem_cons_self svc ss)) with hc | hc <;>
          simp [scanServices, h180, hc, ih]

theorem rba_unreachable (env : RefreshEnv) (s : MonitorState)
    (h1 : ble_read_battery env.cachedConn = none)
    (h2 : env.scan = Except.ok none)
    (h3 : windev_read_battery env.windevLines = none) :
    (read_battery_async env s).1 = Except.ok none := by
  rcases rba_first_stage_skipped env s (Or.inr h1) with h | h <;>
    rw [h, stage2_not_found env _ h2, h3]

theorem refresh_unreachable_battery (env : RefreshEnv)
    (h1 : ble_read_battery env.cachedConn = none)
    (h2 : env.scan = Except.ok none)
    (h3 : windev_read_battery env.windevLines = none) :
    ∀ s : MonitorState, (refreshStep env s).1.battery = none := by
  intro s
  have hu := rba_unreachable env s h1 h2 h3
  rcases hr : read_battery_async env s with ⟨res, s1⟩
  rw [hr] at hu
  subst hu
  simp [refreshStep, hr]

theorem refreshN_unreachable_battery (env : RefreshEnv)
    (h1 : ble_read_battery env.cachedConn = none)
    (h2 : env.scan = Except.ok none)
    (h3 : windev_read_battery env.windevLines = none) :
    ∀ (n : Nat) (s : MonitorState), (refreshN env (n + 1) s).battery = none
  | 0, s => refresh_unreachable_battery env h1 h2 h3 s
  | n + 1, s =>
      refreshN_unreachable_battery env h1 h2 h3 n (refreshStep env s).1

/-- C8: with no device reachable (cached read fails, discovery finds nothing,
OS fallback yields nothing) every repetition of refresh yields an unknown
reading and the pipeline returns normally; and a BLE read with a failed
connection, an absent battery service or characteristic, or a transport error
on every read returns no value instead of a fault. -/
theorem c8_unreachable_idempotent_no_fault :
    (∀ (env : RefreshEnv) (s : MonitorState),
       ble_read_battery env.cachedConn = none →
       env.scan = Except.ok none →
       windev_read_battery env.windevLines = none →
       (read_battery_async env s).1 = Except.ok none ∧
       ∀ n, (refreshN env (n + 1) s).battery = none) ∧
    ble_read_battery BleConn.failure = none ∧
    (∀ svcs : List GattService,
      (∀ svc ∈ svcs, hasSub "180f".toList (toLowerChars svc.uuid.toList) = true →
        ∀ c ∈ svc.characteristics, hasSub "2a19".toList (toLowerChars c.uuid.toList) = false) →
      ble_read_battery (BleConn.services svcs) = none) ∧
    (∀ svcs : List GattService,
      (∀ svc ∈ svcs, ∀ c ∈ svc.characteristics, c.value = none) →
      ble_read_battery (BleConn.services svcs) = none) := by
  refine ⟨?_, rfl, ?_, ?_⟩
  · intro env s h1 h2 h3
    exact ⟨rba_unreachable env s h1 h2 h3,
           fun n => refreshN_unreachable_battery env h1 h2 h3 n s⟩
  · intro svcs h
    exact scanServices_none_of_missing svcs h
  · intro svcs h
    exact scanServices_none_of_reads_fail svcs h

theorem c8_unreachable_idempotent_no_fault_witness :
    ((read_battery_async ⟨BleConn.failure, Except.ok none, BleConn.failure, []⟩
        ⟨none, "Logitech Mouse", some "AA:BB", [], none, none⟩).1 = Except.ok none ∧
     (refreshN ⟨BleConn.failure, Except.ok none, BleConn.failure, []⟩ 3
        ⟨none, "Logitech Mouse", some "AA:BB", [], none, none⟩).battery = none) ∧
    ble_read_battery (BleConn.services [⟨"0000feed-0000-1000-8000-00805f9b34fb", []⟩]) = none ∧
    ble_read_battery (BleConn.services [⟨"0000180f-0000-1000-8000-00805f9b34fb",
        [⟨"00002a19-0000-1000-8000-00805f9b34fb", none⟩]⟩]) = none := by
  have h := c8_unreachable_idempotent_no_fault
  refine ⟨?_, ?_, ?_⟩
  · have h1 := h.1 ⟨BleConn.failure, Except.ok none, BleConn.failure, []⟩
      ⟨none, "Logitech Mouse", some "AA:BB", [], none, none⟩ rfl rfl rfl
    exact ⟨h1.1, h1.2 2⟩
  · exact h.2.2.1 [⟨"0000feed-0000-1000-8000-00805f9b34fb", []⟩] (by decide)
  · exact h.2.2.2 [⟨"0000180f-0000-1000-8000-00805f9b34fb",
      [⟨"00002a19-0000-1000-8000-00805f9b34fb", none⟩]⟩] (by decide)

/- ---------------------------------------------------------------------------
Claim C6: OS fallback filtering
--------------------------------------------------------------------------- -/

theorem windevParseLine_some (line : String) (lvl : Nat)
    (h : windevParseLine line = some lvl) :
    ∃ p : List Char × List Char,
      rsplitBar (trimChars line.toList) = some p ∧
      is_logitech_device (some (String.mk p.1)) = true ∧
      ∃ ds, firstDigitRun p.2 = some ds ∧ digitsToNat ds = lvl ∧ lvl ≤ 100 := by
  unfold windevParseLine at h
  rcases hr : rsplitBar (trimChars line.toList) with _ | p
  · simp only [hr] at h
    cases h
  · simp only [hr] at h
    rcases hl : is_logitech_device (some (String.mk p.1)) with _ | _
    · simp only [hl, Bool.false_eq_true, if_false] at h
      cases h
    · simp only [hl, if_true] at h
      rcases hd : firstDigitRun p.2 with _ | ds
      · simp only [hd] at h
        cases h
      · simp only [hd] at h
        by_cases hb : 0 ≤ digitsToNat ds ∧ digitsToNat ds ≤ 100
        · rw [if_pos hb] at h
          injection h with h2
          exact ⟨p, rfl, hl, ds, hd, h2, h2 ▸ hb.2⟩
        · rw [if_neg hb] at h
          cases h

theorem windevScanLines_some :
    ∀ (ls : List String) (lvl : Nat), windevScanLines ls = some lvl →
      ∃ line ∈ ls, windevParseLine line = some lvl
  | [], lvl => by
      intro h
      cases h
  | l :: ls, lvl => by
      intro h
      rcases hp : windevParseLine l with _ | v
      · rw [windevScanLines, hp] at h
        rcases windevScanLines_some ls lvl h with ⟨line, hmem, hline⟩
        exact ⟨line, List.mem_cons_of_mem l hmem, hline⟩
      · rw [windevScanLines, hp] at h
        injection h with h2
        exact ⟨l, List.mem_cons_self l ls, h2 ▸ hp⟩

theorem windev_read_battery_some :
    ∀ (outs : List (Option (List String))) (lvl : Nat),
      windev_read_battery outs = some lvl →
      ∃ ls, some ls ∈ outs ∧ windevScanLines ls = some lvl
  | [], lvl => by
      intro h
      cases h
  | none :: rest, lvl => by
      intro h
      rw [windev_read_battery] at h
      rcases windev_read_battery_some rest lvl h with ⟨ls, hmem, hls⟩
      exact ⟨ls, List.mem_cons_of_mem none hmem, hls⟩
  | some lines :: rest, lvl => by
      intro h
      rcases hs : windevScanLines lines with _ | v
      · rw [windev_read_battery, hs] at h
        rcases windev_read_battery_some rest lvl h with ⟨ls, hmem, hls⟩
        exact ⟨ls, List.mem_cons_of_mem (some lines) hmem, hls⟩
      · rw [windev_read_battery, hs] at h
        injection h with h2
        exact ⟨lines, List.mem_cons_self (some lines) rest, h2 ▸ hs⟩

/-- C6: whenever the OS fallback reader returns a battery level, that level
came from an output line whose device-name part satisfies the same keyword
predicate wireless discovery filters with, and whose extracted numeric value
is at most 100 (and at least 0, trivially); out-of-range or unparseable lines
are never surfaced. -/
theorem c6_fallback_same_filter_and_range (outs : List (Option (List String))) (lvl : Nat)
    (h : windev_read_battery outs = some lvl) :
    lvl ≤ 100 ∧
    (∀ d : BleDevice, ble_scan_match d = is_logitech_device d.name) ∧
    ∃ ls, some ls ∈ outs ∧ ∃ line ∈ ls, ∃ p : List Char × List Char,
      rsplitBar (trimChars line.toList) = some p ∧
      is_logitech_device (some (String.mk p.1)) = true ∧
      ∃ ds, firstDigitRun p.2 = some ds ∧ digitsToNat ds = lvl ∧ lvl ≤ 100 := by
  rcases windev_read_battery_some outs lvl h with ⟨ls, hmem, hls⟩
  rcases windevScanLines_some ls lvl hls with ⟨line, hline, hparse⟩
  rcases windevParseLine_some line lvl hparse with ⟨p, hp, hlogi, ds, hds, hval, hle⟩
  exact ⟨hle, fun d => rfl, ls, hmem, line, hline, p, hp, hlogi, ds, hds, hval, hle⟩

theorem c6_fallback_same_filter_and_range_witness :
    (85 : Nat) ≤ 100 ∧
    (∀ d : BleDevice, ble_scan_match d = is_logitech_device d.name) ∧
    ∃ ls, some ls ∈ [some ["Logitech MX Master|85"]] ∧
      ∃ line ∈ ls, ∃ p : List Char × List Char,
        rsplitBar (trimChars line.toList) = some p ∧
        is_logitech_device (some (String.mk p.1)) = true ∧
        ∃ ds, firstDigitRun p.2 = some ds ∧ digitsToNat ds = 85 ∧ (85 : Nat) ≤ 100 :=
  c6_fallback_same_filter_and_range [some ["Logitech MX Master|85"]] 85 (by decide)
